import Mathlib

/-!
# Verification of the orb-workflow document-to-billing pipeline

Shallow embedding of the workflow orchestration code in
`orb-workflow/langgraph_orchestrator.py` and the agents it drives
(`agents/slack_human_verification_agent.py`,
`agents/billing_configurator_agent.py`,
`agents/document_processor_agent.py`,
`agents/document_watcher_agent.py`, `agents/email_watcher_agent.py`),
together with theorems settling the frozen claims about the
natural-language specification of that code.

Modelling conventions:
* Python dicts carrying extracted JSON data are association lists
  `List (String × Value)` in insertion order with unique keys; `d.get(k)`
  is first-match lookup.
* Slack message timestamps are modelled as integers (the code stores them
  as strings and compares them through `float(...)`; the decimal values
  compare exactly, so an integer model preserves the order structure).
* ASCII models of Python `str.lower` / `str.strip` / substring tests /
  `int(...)` parsing are implemented over character lists so that every
  definition evaluates inside the kernel.
* External collaborator calls (LLM extraction, the Slack transport, the
  LLM change-interpreter, the Arcade billing worker) are parameters of
  the embedded functions: each theorem quantifies over, or fixes, the
  outcomes those collaborators return, exactly at the call sites where
  the Python code consumes them.
* A `while` loop whose iterations each consume one collaborator outcome
  becomes structural recursion over the finite list ("script") of those
  outcomes; exhausting the script while the loop would still be running
  is the distinguished result `stuck`, which no claim relies on.
* Error strings built by the code out of collaborator payload reprs are
  reproduced structurally; the rendering of an opaque payload inside such
  a string is abbreviated where no claim inspects it.
-/

deriving instance DecidableEq for Except

section PyStrings
/-! ## Reducible models of the Python string primitives the code uses -/

/-- ASCII `str.lower` on one character. -/
def charLower (c : Char) : Char :=
  if 65 ≤ c.toNat ∧ c.toNat ≤ 90 then Char.ofNat (c.toNat + 32) else c

/-- ASCII `str.lower`. -/
def strLower (s : String) : String := ⟨s.data.map charLower⟩

/-- The whitespace characters `str.strip` removes. -/
def isWS (c : Char) : Bool := c == ' ' || c == '\t' || c == '\n' || c == '\r'

/-- `str.strip()`. -/
def strTrim (s : String) : String :=
  ⟨((s.data.dropWhile isWS).reverse.dropWhile isWS).reverse⟩

/-- `s.endswith(t)`. -/
def strEndsWith (s t : String) : Bool := t.data.isSuffixOf s.data

/-- `s.startswith(t)`. -/
def strStartsWith (s t : String) : Bool := t.data.isPrefixOf s.data

/-- Python `needle in hay` on strings. -/
def listContainsSub : List Char → List Char → Bool
  | _, [] => true
  | [], _ :: _ => false
  | c :: cs, n => (n.isPrefixOf (c :: cs)) || listContainsSub cs n

/-- Python `needle in hay` on strings. -/
def strContainsSub (hay needle : String) : Bool :=
  listContainsSub hay.data needle.data

/-- Decimal digit run, or `none` when empty or a non-digit occurs. -/
def digitsToNat : List Char → Option Nat
  | [] => none
  | cs => cs.foldlM
      (fun acc c => if c.isDigit then some (acc * 10 + (c.toNat - 48)) else none) 0

/-- Python `int(s)` on a string: surrounding whitespace stripped, optional
sign, decimal digits; anything else raises (`none`). -/
def pyParseInt (s : String) : Option Int :=
  match (strTrim s).data with
  | '-' :: rest => (digitsToNat rest).map (fun n => -(n : Int))
  | '+' :: rest => (digitsToNat rest).map (fun n => (n : Int))
  | cs => (digitsToNat cs).map (fun n => (n : Int))

/-- `", ".join(xs)`. -/
def joinComma (xs : List String) : String :=
  String.intercalate ", " xs

/-- Python `repr` of a list of string keys, as rendered by
`list(extracted_data.keys())` inside an f-string. -/
def pyKeysRepr (ks : List String) : String :=
  "[" ++ joinComma (ks.map (fun k => "\x27" ++ k ++ "\x27")) ++ "]"

end PyStrings

section DataModel
/-! ## JSON-like data dictionaries -/

mutual
/-- JSON-like values stored in the extracted-data dictionaries
(`ValueList` is the list case, mutual so that equality is decidable). -/
inductive Value where
  | vStr (s : String)
  | vInt (n : Int)
  | vBool (b : Bool)
  | vNull
  | vList (xs : ValueList)
deriving DecidableEq, Repr

inductive ValueList where
  | nil
  | cons (v : Value) (vs : ValueList)
deriving DecidableEq, Repr
end

open Value

/-- Python truthiness of a JSON-like value. -/
def Value.truthy : Value → Bool
  | vStr s => !s.isEmpty
  | vInt n => n != 0
  | vBool b => b
  | vNull => false
  | vList ValueList.nil => false
  | vList (ValueList.cons _ _) => true

/-- An extracted-data mapping: a Python dict in insertion order. -/
abbrev Data := List (String × Value)

/-- `d.get(k)` / `d[k]` on a dict: first entry with the exact key. -/
def dget (d : Data) (k : String) : Option Value :=
  (d.find? (fun p => p.1 == k)).map (·.2)

/-- Lookup in `{k.lower(): v for k, v in d.items()}`: on lowercased-key
collisions the comprehension keeps the value of the later entry, so the
lookup searches the reversed list. -/
def dgetLower (d : Data) (k : String) : Option Value :=
  (d.reverse.find? (fun p => strLower p.1 == k)).map (·.2)

/-- Truthiness of an optional value (`None` is falsy). -/
def otruthy : Option Value → Bool
  | none => false
  | some v => v.truthy

/-- Python `a or b` over optional dict lookups. -/
def pyOr (a b : Option Value) : Option Value :=
  if otruthy a then a else b

/-- Python `int(v)`: integers pass through, booleans become 0/1, strings
are parsed as decimal integers, everything else raises (`none`). -/
def intCoerce : Value → Option Int
  | vInt n => some n
  | vBool b => some (if b then 1 else 0)
  | vStr s => pyParseInt s
  | vNull => none
  | vList _ => none

/-- Python `str(v)` as used in the code's f-strings (the rendering of a
list payload is abbreviated; no claim inspects one). -/
def Value.pyStr : Value → String
  | vStr s => s
  | vInt n => toString n
  | vBool b => if b then "True" else "False"
  | vNull => "None"
  | vList _ => "[...]"

end DataModel

open Value

section Validation
/-!
## `BillingConfiguratorAgent.validate_data` and `_get_plan_id`
(`agents/billing_configurator_agent.py`)
-/

/-- The plan table of `_get_plan_id`. -/
def planMapGet : String → Option String
  | "basic" => some "plan_basic_monthly"
  | "pro" => some "plan_pro_monthly"
  | "enterprise" => some "plan_enterprise_yearly"
  | "basic plan" => some "plan_basic_monthly"
  | "pro plan" => some "plan_pro_monthly"
  | "enterprise plan" => some "plan_enterprise_yearly"
  | _ => none

/-- `_get_plan_id`: normalises the plan value (falsy → `""`), consults
the table, and otherwise passes strings beginning with `"plan_"` through
unchanged.  A truthy non-string raises `AttributeError` at `.strip()`
(modelled as `Except.error`). -/
def get_plan_id (v : Value) : Except String (Option String) :=
  if v.truthy then
    match v with
    | vStr s =>
      let n := strLower (strTrim s)
      .ok (match planMapGet n with
           | some pid => some pid
           | none => if strStartsWith n "plan_" then some n else none)
    | _ => .error "AttributeError"
  else
    .ok (planMapGet "")

/-- Values `validate_data` rejects: `[None, "", "N/A", "null"]`. -/
def rejectedValues : List Value :=
  [vNull, vStr "", vStr "N/A", vStr "null"]

/-- The `required_fields` table of `validate_data`:
canonical field name paired with its accepted key variations. -/
def requiredFields : List (String × List String) :=
  [("customer_name", ["company", "customer_name", "name"]),
   ("email", ["email", "contact", "email/contact"]),
   ("plan_type", ["subscription", "plan", "plan_type", "subscription/plan_type"])]

/-- The first variation of a canonical field present in `d` with an
accepted value, if any (the inner loop of `validate_data`). -/
def findVariation (d : Data) (variations : List String) : Option Value :=
  match variations with
  | [] => none
  | v :: rest =>
    match dget d v with
    | some val => if val ∈ rejectedValues then findVariation d rest else some val
    | none => findVariation d rest

/-- Canonical fields for which no variation carries an accepted value. -/
def missingFields (d : Data) : List String :=
  (requiredFields.filter (fun p => (findVariation d p.2).isNone)).map (·.1)

/-- The value recorded in `found_data` for `plan_type`. -/
def foundPlan (d : Data) : Option Value :=
  findVariation d ["subscription", "plan", "plan_type", "subscription/plan_type"]

/-- `validate_data`: `(is_valid, error_msg)`, or an uncaught exception
propagating out of `_get_plan_id`. -/
def validate_data (d : Data) : Except String (Bool × Option String) :=
  let missing := missingFields d
  if missing.isEmpty then
    let planVal := (foundPlan d).getD vNull
    match get_plan_id planVal with
    | .error e => .error e
    | .ok (some _) => .ok (true, none)
    | .ok none =>
      .ok (false, some ("Invalid or unmappable plan_type: \x27" ++ planVal.pyStr
        ++ "\x27. Expected Basic, Pro, or Enterprise."))
  else
    .ok (false, some ("Missing required fields (checked variations): "
      ++ joinComma missing ++ ". Extracted keys: " ++ pyKeysRepr (d.map (·.1))))

/-- The plan-matching rule as claim C6 words it: case-insensitive, the
literal suffix `"plan"` ignored, mapping into the known plan names. -/
def specPlanMatches (v : Value) : Bool :=
  match v with
  | vStr s =>
    let n := strLower (strTrim s)
    let base := if strEndsWith n "plan" then strTrim ⟨n.data.take (n.data.length - 4)⟩ else n
    base == "basic" || base == "pro" || base == "enterprise"
  | _ => false

/-- Validation acceptance as claim C6 words it: every canonical field is
present under one of its synonym keys with a non-empty value, and the
plan value matches per `specPlanMatches`. -/
def specValidC6 (d : Data) : Bool :=
  (requiredFields.all (fun p =>
     p.2.any (fun k =>
       match dget d k with
       | some v => !(v == vNull) && !(v == vStr "")
       | none => false)))
  && (match foundPlan d with
      | some v => specPlanMatches v
      | none => false)

/-- Validation acceptance as the code actually decides it: every
canonical field has some variation carrying a value outside
`[None, "", "N/A", "null"]`, and the found plan value is a string
(or falsy) that `_get_plan_id` maps — via the six-entry table,
case-insensitively, or passed through when it begins with `"plan_"`. -/
def codeValidC6 (d : Data) : Bool :=
  (requiredFields.all (fun p => (findVariation d p.2).isSome))
  && (match get_plan_id ((foundPlan d).getD vNull) with
      | .ok (some _) => true
      | _ => false)

end Validation

example : validate_data
    [("customer_name", vStr "Acme"), ("email", vStr "a@x.com"),
     ("plan", vStr "Pro Plan")] = .ok (true, none) := by decide

example : validate_data
    [("customer_name", vStr "Acme"), ("email", vStr "a@x.com"),
     ("plan", vStr "plan_zzz")] = .ok (true, none) := by decide

example : specValidC6
    [("customer_name", vStr "Acme"), ("email", vStr "a@x.com"),
     ("plan", vStr "plan_zzz")] = false := by decide

example : validate_data [("company", vStr "Acme")] =
    .ok (false, some "Missing required fields (checked variations): email, plan_type. Extracted keys: [\x27company\x27]") := by
  decide

section Billing
/-!
## `BillingConfiguratorAgent.configure_billing`
(`agents/billing_configurator_agent.py`)

The two `_call_arcade_worker` invocations (CreateCustomer, then
CreateSubscription) are external collaborator calls; each outcome is a
parameter.  The calls the function actually issues are recorded so that
theorems can speak about the arguments sent to the worker.
-/

/-- Outcome of one `_call_arcade_worker` invocation: an exception, or the
returned dict reduced to the fields `configure_billing` reads —
its `success` flag and `output.value` (a dict) when present. -/
inductive WorkerOutcome where
  | exn (msg : String)
  | ok (success : Bool) (value : Option Data)
deriving DecidableEq, Repr

/-- Arguments of the CreateSubscription worker call. -/
structure SubscriptionArgs where
  customer_id : Value
  plan_id : String
  user_count : Int
  addons : Value
deriving DecidableEq, Repr

/-- The dict `configure_billing` returns. -/
structure BillingResult where
  customer_id : Option Value
  subscription_id : Option Value
  configuration_result : Bool
  configuration_error : Option String
deriving DecidableEq, Repr

/-- `configure_billing`'s return dict plus the worker calls it issued. -/
structure BillingOutcome where
  result : BillingResult
  customerCall : Option (Value × Value)
  subscriptionCall : Option SubscriptionArgs
deriving DecidableEq, Repr

/-- The `customer_name` fallback-lookup chain. -/
def nameKeys : List String :=
  ["customer_name", "customername", "company", "customer"]

/-- The `customer_email` fallback-lookup chain. -/
def emailKeys : List String :=
  ["customer_email", "customeremail", "contact_email", "contact email",
   "contactemail", "email", "email/contact"]

/-- The `plan_type` fallback-lookup chain. -/
def planKeys : List String :=
  ["plan_type", "subscriptionplan", "subscription plan",
   "subscription_plan_type", "subscription/plan_type", "plan", "subscription"]

/-- The `user_count` fallback-lookup chain (before the trailing `or 1`). -/
def userCountKeys : List String :=
  ["user_count", "numusers", "number_of_users", "number_of_seats/users",
   "seats", "users"]

/-- The Python value of `data_lower.get(k1) or data_lower.get(k2) or ...`. -/
def chainVal (d : Data) : List String → Option Value
  | [] => none
  | [k] => dgetLower d k
  | k :: ks => pyOr (dgetLower d k) (chainVal d ks)

/-- `user_count = chain or 1`. -/
def getUserCountVal (d : Data) : Value :=
  match chainVal d userCountKeys with
  | some v => if v.truthy then v else vInt 1
  | none => vInt 1

/-- `int(user_count)` with the `except: user_count_int = 1` fallback. -/
def userCountInt (d : Data) : Int :=
  (intCoerce (getUserCountVal d)).getD 1

/-- `addons = data_lower.get("addons", [])`, then `addons or []`. -/
def getAddonsArg (d : Data) : Value :=
  let a := (dgetLower d "addons").getD (vList ValueList.nil)
  if a.truthy then a else vList ValueList.nil

/-- A `BillingResult` carrying only a `configuration_error`, as built by
the `except` clause of `configure_billing` when nothing was created. -/
def billingErr (msg : String) : BillingResult :=
  { customer_id := none, subscription_id := none,
    configuration_result := false, configuration_error := some msg }

/-- `configure_billing`: field extraction over lowercased keys, local
validation, then CreateCustomer and CreateSubscription through the
worker; every raised exception is caught and recorded as
`configuration_error` while the already-assigned identifiers stay in the
returned dict. -/
def configure_billing (d : Data) (custW subW : WorkerOutcome) : BillingOutcome :=
  if d.isEmpty then
    { result := billingErr "No data extracted from document.",
      customerCall := none, subscriptionCall := none }
  else
    let nameV := chainVal d nameKeys
    let emailV := chainVal d emailKeys
    let planV := chainVal d planKeys
    if !(otruthy nameV && otruthy emailV && otruthy planV) then
      let missing := (if otruthy nameV then [] else ["customer name"])
        ++ (if otruthy emailV then [] else ["customer email"])
        ++ (if otruthy planV then [] else ["plan type"])
      { result := billingErr ("Missing required fields (checked variations): "
          ++ joinComma missing ++ ". Extracted keys: " ++ pyKeysRepr (d.map (·.1))),
        customerCall := none, subscriptionCall := none }
    else
      let planVal := (planV.getD vNull)
      match planMapGet (strTrim (strLower planVal.pyStr)) with
      | none =>
        { result := billingErr ("Could not map plan type: \x27" ++ planVal.pyStr ++ "\x27"),
          customerCall := none, subscriptionCall := none }
      | some plan_id =>
        let ucInt := userCountInt d
        let custArgs := (nameV.getD vNull, emailV.getD vNull)
        match custW with
        | .exn m =>
          { result := billingErr m, customerCall := some custArgs, subscriptionCall := none }
        | .ok success value =>
          if !success then
            { result := billingErr "CreateCustomer tool failed: [payload]",
              customerCall := some custArgs, subscriptionCall := none }
          else
            match value with
            | none =>
              { result := billingErr "Cannot find output.value in the customer response",
                customerCall := some custArgs, subscriptionCall := none }
            | some cv =>
              let cid := dget cv "id"
              if !(otruthy cid) then
                { result := { (billingErr "Failed to get customer ID from tool response.") with
                    customer_id := cid },
                  customerCall := some custArgs, subscriptionCall := none }
              else
                let cidV := cid.getD vNull
                let subArgs : SubscriptionArgs :=
                  { customer_id := cidV, plan_id := plan_id,
                    user_count := ucInt, addons := getAddonsArg d }
                match subW with
                | .exn m =>
                  { result := { (billingErr m) with customer_id := cid },
                    customerCall := some custArgs, subscriptionCall := some subArgs }
                | .ok ssuccess svalue =>
                  if !ssuccess then
                    { result := { (billingErr "CreateSubscription tool failed: [payload]") with
                        customer_id := cid },
                      customerCall := some custArgs, subscriptionCall := some subArgs }
                  else
                    match svalue with
                    | none =>
                      { result := { (billingErr "Cannot find output.value in the subscription response") with
                          customer_id := cid },
                        customerCall := some custArgs, subscriptionCall := some subArgs }
                    | some sv =>
                      let sid := dget sv "id"
                      if !(otruthy sid) then
                        let res : BillingResult :=
                          { customer_id := cid, subscription_id := sid,
                            configuration_result := false,
                            configuration_error := some "Failed to get subscription ID from tool response." }
                        { result := res,
                          customerCall := some custArgs, subscriptionCall := some subArgs }
                      else
                        let res : BillingResult :=
                          { customer_id := cid, subscription_id := sid,
                            configuration_result := true, configuration_error := none }
                        { result := res,
                          customerCall := some custArgs, subscriptionCall := some subArgs }

end Billing

example :
    (configure_billing
      [("company", vStr "Acme"), ("email", vStr "a@x.com"),
       ("subscription", vStr "Pro Plan"), ("seats", vInt 3)]
      (.ok true (some [("id", vStr "cus_1")]))
      (.ok true (some [("id", vStr "sub_1")]))).result =
    { customer_id := some (vStr "cus_1"), subscription_id := some (vStr "sub_1"),
      configuration_result := true, configuration_error := none } := by decide

example :
    (configure_billing
      [("company", vStr "Acme"), ("email", vStr "a@x.com"),
       ("subscription", vStr "Pro Plan"), ("seats", vStr "three")]
      (.ok true (some [("id", vStr "cus_1")]))
      (.ok true (some [("id", vStr "sub_1")]))).subscriptionCall =
    some { customer_id := vStr "cus_1", plan_id := "plan_pro_monthly",
           user_count := 1, addons := vList ValueList.nil } := by decide

section SlackVerification
/-!
## `SlackHumanVerificationAgent` (`agents/slack_human_verification_agent.py`)

`wait_for_response` polls `SlackHelper.get_thread_replies` every ten
seconds until the timeout; the sequence of poll results is the script
(`none` = the helper failed to get a token, which aborts the wait;
exhausting the list = the timeout elapsed).  `process_response`'s LLM
call is an `LLMOutcome` parameter.  Message timestamps are integers (see
the file header).
-/

/-- Truthiness of an optional string (`None` and `""` are falsy). -/
def struthy : Option String → Bool
  | none => false
  | some s => !s.isEmpty

/-- A Slack reply message, reduced to the fields the agent reads. -/
structure Reply where
  ts : Option Int
  user : Option String
  text : String
deriving DecidableEq, Repr

/-- Stable insertion keeping an element after existing equal keys, as
Python's stable `list.sort` does. -/
def insertByTs (r : Reply) : List Reply → List Reply
  | [] => [r]
  | x :: xs => if r.ts.getD 0 < x.ts.getD 0 then r :: x :: xs else x :: insertByTs r xs

/-- `replies.sort(key=lambda m: float(m.get('ts', 0)))`. -/
def sortReplies (rs : List Reply) : List Reply :=
  rs.foldl (fun acc r => insertByTs r acc) []

/-- One pass of the reply filter inside `wait_for_response`: skip
replies without a `ts`, consider only those strictly newer than
`min_reply_ts`, skip the bot's own replies and replies whose stripped
text is empty, return the first remaining one. -/
def pollScan (botId : Option String) (minTs : Int) : List Reply → Option Reply
  | [] => none
  | r :: rest =>
    match r.ts with
    | none => pollScan botId minTs rest
    | some t =>
      if minTs < t then
        if botId.isSome && r.user == botId then pollScan botId minTs rest
        else if ((strTrim r.text).isEmpty) then pollScan botId minTs rest
        else some r
      else pollScan botId minTs rest

/-- `wait_for_response`: one `pollScan` per helper poll; a `none` poll
(helper token failure) aborts with `None`, running out of polls is the
timeout, both returning `None` to the caller. -/
def wait_for_response (botId : Option String) (minTs : Int) :
    List (Option (List Reply)) → Option Reply
  | [] => none
  | none :: _ => none
  | some rs :: rest =>
    match pollScan botId minTs (sortReplies rs) with
    | some r => some r
    | none => wait_for_response botId minTs rest

/-- The `approval_keywords` list of `process_response`. -/
def approvalKeywords : List String :=
  ["approve", "approved", "verified", "looks good", "lg", "yes", "confirm"]

/-- `text` contains one of the approval keywords (after strip+lower). -/
def approvalMatch (text : String) : Bool :=
  approvalKeywords.any (fun k => strContainsSub (strLower (strTrim text)) k)

/-- Outcome of the LLM change-interpretation call inside
`process_response`: the parsed JSON fields it reads, a JSON decode
failure, or any other exception. -/
inductive LLMOutcome where
  | res (updated : Option Data) (changesApplied : Bool) (error : Option String)
  | badJson
  | exn
deriving DecidableEq, Repr

/-- The four statuses `process_response` can yield. -/
inductive RespStatus where
  | approved
  | changes_requested
  | unclear
  | error
deriving DecidableEq, Repr

/-- `process_response`: keyword check for approval, else the LLM outcome
decides between `changes_requested` (changes applied, truthy updated
data), `unclear`, and `error`. -/
def process_response (msg : Reply) (original : Data) (llm : LLMOutcome) :
    RespStatus × Option Data :=
  if approvalMatch msg.text then (.approved, some original)
  else
    match llm with
    | .res updated applied err =>
      if struthy err then (.unclear, some original)
      else if applied && (match updated with | some u => !u.isEmpty | none => false) then
        (.changes_requested, updated)
      else (.unclear, some original)
    | .badJson => (.error, none)
    | .exn => (.error, none)

/-- Script for one iteration of the verification wait loop: the poll
results consumed by `wait_for_response`, the LLM outcome if
`process_response` reaches its LLM call, and the result of
`send_reply_in_thread` if the iteration sends a follow-up. -/
structure Round where
  polls : List (Option (List Reply))
  llm : LLMOutcome
  sendTs : Option Int
deriving DecidableEq, Repr

/-- A follow-up sent with `send_reply_in_thread`: the channel and thread
it went to and the timestamp it came back with. -/
structure Followup where
  channel : String
  thread : Int
  ts : Int
deriving DecidableEq, Repr

/-- Result of `request_and_wait_for_verification`: the returned triple,
`None`, or `stuck` when the script ends while the loop would continue. -/
inductive VerifResult where
  | success (d : Data) (origTs : Int) (channel : String)
  | failure
  | stuck
deriving DecidableEq, Repr

/-- The `while retries < max_retries` loop of
`request_and_wait_for_verification`, recursing over the round script;
also returns the follow-ups sent.  State threaded exactly as the code
does: `current_data`, `last_processed_interaction_ts`, `retries`. -/
def verifLoop (botId : Option String) (maxR : Nat) (messageTs : Int) (channelId : String) :
    Data → Int → Nat → List Round → VerifResult × List Followup
  | _, _, retries, [] =>
    if maxR ≤ retries then (.failure, []) else (.stuck, [])
  | d, lastTs, retries, r :: rest =>
    if maxR ≤ retries then (.failure, [])
    else
      match wait_for_response botId lastTs r.polls with
      | none => (.failure, [])
      | some reply =>
        -- the tracker update to the user reply's ts is superseded on every
        -- path that keeps looping (both follow-up sends overwrite it), so
        -- the binding is dead here exactly as in the code
        let _lastTs1 := match reply.ts with | some t => t | none => lastTs
        match process_response reply d r.llm with
        | (.approved, pd) =>
          let finalData := match pd with
            | some x => if x.isEmpty then d else x
            | none => d
          (.success finalData messageTs channelId, [])
        | (.changes_requested, pd) =>
          match pd with
          | none => (.failure, [])
          | some nd =>
            if nd.isEmpty then (.failure, [])
            else
              match r.sendTs with
              | none => (.failure, [])
              | some rts =>
                let next := verifLoop botId maxR messageTs channelId nd rts (retries + 1) rest
                (next.1, { channel := channelId, thread := messageTs, ts := rts } :: next.2)
        | (.unclear, _) =>
          match r.sendTs with
          | none => (.failure, [])
          | some cts =>
            let next := verifLoop botId maxR messageTs channelId d cts retries rest
            (next.1, { channel := channelId, thread := messageTs, ts := cts } :: next.2)
        | (.error, _) => (.failure, [])

/-- `request_and_wait_for_verification`: the initial
`send_verification_request` outcome is `send` (`none` = send failed or
no `ts`/`channel` in the response); on success the loop starts with
`last_processed_interaction_ts = message_ts`. -/
def request_and_wait_for_verification (botId : Option String) (maxR : Nat)
    (initialData : Data) (send : Option (Int × String)) (rounds : List Round) :
    VerifResult × List Followup :=
  match send with
  | none => (.failure, [])
  | some (ts, ch) => verifLoop botId maxR ts ch initialData ts 0 rounds

end SlackVerification

example :
    (request_and_wait_for_verification none 3 [("company", vStr "Acme")]
      (some (100, "C1"))
      [{ polls := [some [{ ts := some 150, user := some "U1", text := "approve" }]],
         llm := .exn, sendTs := none }]).1 =
    .success [("company", vStr "Acme")] 100 "C1" := by decide

example :
    (request_and_wait_for_verification none 3 [("company", vStr "Acme")]
      (some (100, "C1"))
      [{ polls := [some [{ ts := some 100, user := some "U1", text := "approve" }]],
         llm := .exn, sendTs := none }]).1 = .failure := by decide

section Orchestrator
/-!
## The processing graph (`langgraph_orchestrator.py`)

Each LangGraph node returns a full updated state dict (`{**state, ...}`),
so merging is replacement; `mark_document_processed_node` returns only
`{"status": "completed"}`, merged into the previous state.  The graph's
conditional edges route on the listed state fields.  One run's script
holds the extraction outcome, one `VerifEntry` per entry into
`human_verification`, one follow-up-send outcome per entry into
`inform_user_of_validation_error`, and the two billing worker outcomes.
-/

/-- The LangGraph `WorkflowState` dict (`status` is absent on entry, so
it is optional here). -/
structure WorkflowState where
  document_path : Option String := none
  extracted_data : Option Data := none
  extraction_error : Option String := none
  verified_data : Option Data := none
  is_verified : Option Bool := none
  verification_error : Option String := none
  is_valid_for_billing : Option Bool := none
  validation_error : Option String := none
  original_slack_thread_ts : Option Int := none
  slack_channel_id : Option String := none
  customer_id : Option Value := none
  subscription_id : Option Value := none
  configuration_result : Bool := false
  configuration_error : Option String := none
  source : Option String := none
  email_data : Option Data := none
  status : Option String := none
  error_message : Option String := none
deriving DecidableEq, Repr

/-- Truthiness of an optional data dict (`None` and `{}` are falsy). -/
def otruthyData : Option Data → Bool
  | some d => !d.isEmpty
  | none => false

/-- Outcome of `document_processor.process_document`: an exception that
escaped it (caught by the node), or its returned dict reduced to
`extracted_data` and `error`. -/
inductive ExtractOutcome where
  | exn (msg : String)
  | res (extracted : Option Data) (error : Option String)
deriving DecidableEq, Repr

/-- `process_document_node`. -/
def process_document_node (s : WorkflowState) (x : ExtractOutcome) : WorkflowState :=
  match s.document_path with
  | none =>
    { s with
        status := some "error",
        extraction_error := some "Missing document_path",
        error_message := some "Internal error: process_document_node triggered without document_path." }
  | some _ =>
    match x with
    | .exn m =>
      { s with
          status := some "error", extraction_error := some m,
          error_message := some ("Unhandled error during document processing: " ++ m) }
    | .res ext err =>
      if struthy err then
        { s with
            status := some "error", extraction_error := err,
            error_message := some ("Document processing failed: " ++ err.getD "") }
      else
        { s with extracted_data := ext, status := some "processing" }

/-- Script for one entry into `human_verification`: the
`send_verification_request` outcome and the wait-loop rounds. -/
structure VerifEntry where
  send : Option (Int × String)
  rounds : List Round
deriving DecidableEq, Repr

/-- `human_verification_node` (called with `timeout_seconds=600,
max_retries=5`).  The second component reports a script-exhausted
verification loop. -/
def human_verification_node (botId : Option String) (s : WorkflowState)
    (ve : VerifEntry) : WorkflowState × Bool :=
  let docPath := s.document_path.getD "Unknown document"
  if !(otruthyData s.extracted_data) then
    ({ s with
         status := some "error", is_verified := some false,
         verification_error := some "No extracted data to verify",
         error_message := some "Verification skipped: No extracted data." }, false)
  else
    let d := s.extracted_data.getD []
    match request_and_wait_for_verification botId 5 d ve.send ve.rounds with
    | (.success fd ts ch, _) =>
      ({ s with
           verified_data := some fd, is_verified := some true,
           original_slack_thread_ts := some ts, slack_channel_id := some ch,
           verification_error := none, status := some "processing" }, false)
    | (.failure, _) =>
      ({ s with
           is_verified := some false, verified_data := none,
           verification_error := some "Verification failed or timed out in Slack",
           status := some "error",
           error_message := some ("Human verification via Slack failed or timed out for "
             ++ docPath ++ ".") }, false)
    | (.stuck, _) => (s, true)

/-- `validate_data_node`; `validate_data` may raise out of the node
(`Except.error`), every other path yields the updated state. -/
def validate_data_node (s : WorkflowState) : Except String WorkflowState :=
  if !(otruthyData s.verified_data) then
    .ok { s with
            is_valid_for_billing := some false,
            validation_error := some "No verified data available for validation",
            status := some "error",
            error_message := some "Validation skipped: No verified data." }
  else
    match validate_data (s.verified_data.getD []) with
    | .error e => .error e
    | .ok (true, _) =>
      .ok { s with
              is_valid_for_billing := some true, validation_error := none,
              status := some "processing" }
    | .ok (false, msg) =>
      .ok { s with
              is_valid_for_billing := some false, validation_error := msg,
              status := some "error",
              error_message := some ("Data validation failed: " ++ msg.getD "") }

/-- `inform_user_of_validation_error_node`; `io` is the
`send_reply_in_thread` outcome when the node reaches that call. -/
def inform_user_of_validation_error_node (s : WorkflowState) (io : Option Int) :
    WorkflowState :=
  if s.original_slack_thread_ts.isNone || !(struthy s.slack_channel_id) then
    { s with
        status := some "error",
        error_message := some "Internal error: Missing Slack thread details to report validation error." }
  else
    match io with
    | none =>
      { s with
          status := some "error",
          error_message := some "Failed to send validation error to Slack." }
    | some _ =>
      { s with
          verified_data := none, is_verified := none,
          is_valid_for_billing := none, status := some "processing",
          validation_error := none }

/-- `configure_billing_node`. -/
def configure_billing_node (s : WorkflowState) (custW subW : WorkerOutcome) :
    WorkflowState :=
  let docPath := s.document_path.getD "Unknown document"
  if !(otruthyData s.verified_data) then
    { s with
        status := some "error",
        configuration_error := some "No verified data provided",
        error_message := some ("Billing configuration skipped: No verified data for "
          ++ docPath ++ ".") }
  else
    let r := (configure_billing (s.verified_data.getD []) custW subW).result
    if struthy r.configuration_error then
      { s with
          status := some "error", configuration_error := r.configuration_error,
          error_message := some ("Billing configuration failed: "
            ++ r.configuration_error.getD "") }
    else
      { s with
          customer_id := r.customer_id, subscription_id := r.subscription_id,
          configuration_result := r.configuration_result, status := some "success" }

/-- `mark_document_processed_node`: the returned state (only `status` is
merged in), the file paths passed to `document_watcher.mark_as_processed`
and the email ids passed to `email_watcher.mark_email_processed`. -/
def mark_document_processed_node (s : WorkflowState) :
    WorkflowState × List String × List Value :=
  match s.document_path with
  | none => ({ s with status := some "completed" }, [], [])
  | some p =>
    let done := { s with status := some "completed" }
    if s.status == some "success" || s.status == some "error" then
      match s.source with
      | some "file" => (done, [p], [])
      | some "email" =>
        let eid := dget (s.email_data.getD []) "email_id"
        if otruthy eid then (done, [], [eid.getD vNull]) else (done, [], [])
      | _ => (done, [], [])
    else
      (done, [], [])

end Orchestrator

section GraphRunner
/-! ## Running the compiled graph for one item (`invoke_graph_for_item`) -/

/-- What one graph invocation did: the final merged state, the status
`mark_document_processed` saw, the ledger updates it performed
(file paths / email ids), the successful `send_verification_request`
outcomes (one conversation opened per entry), the dicts passed to
`validate_data`, and whether a graph exception reached the driver. -/
structure RunResult where
  final : WorkflowState
  preMark : Option String
  fileMarks : List String
  emailMarks : List Value
  opens : List (Int × String)
  validationInputs : List Data
  crashed : Bool
deriving DecidableEq, Repr

/-- A run either completes (through `mark_document_processed` or the
driver's exception handler) or the script ends while the graph's
verification loop would still be running; in the latter case the
conversations opened and validation inputs so far are still reported. -/
inductive RunOutcome where
  | done (r : RunResult)
  | stuck (opens : List (Int × String)) (validationInputs : List Data)
deriving DecidableEq, Repr

/-- The conversations opened by a run, finished or not. -/
def RunOutcome.opensOf : RunOutcome → List (Int × String)
  | .done r => r.opens
  | .stuck o _ => o

/-- The dicts passed to `validate_data` by a run, finished or not. -/
def RunOutcome.vIns : RunOutcome → List Data
  | .done r => r.validationInputs
  | .stuck _ v => v

/-- The final state of a finished run. -/
def RunOutcome.finalOf : RunOutcome → Option WorkflowState
  | .done r => some r.final
  | .stuck _ _ => none

/-- The status `mark_document_processed` saw, for a finished run. -/
def RunOutcome.preMarkOf : RunOutcome → Option (Option String)
  | .done r => some r.preMark
  | .stuck _ _ => none

/-- Route into `mark_document_processed` and finish the run. -/
def finishAtMark (s : WorkflowState) (opens : List (Int × String))
    (vIns : List Data) : RunResult :=
  let m := mark_document_processed_node s
  { final := m.1, preMark := s.status, fileMarks := m.2.1, emailMarks := m.2.2,
    opens := opens, validationInputs := vIns, crashed := false }

/-- `invoke_graph_for_item`'s exception handler: a graph exception is
caught by the driver, which calls `mark_document_processed_node` on a
reconstructed state with status `"error"`. -/
def finishCrashed (s : WorkflowState) (opens : List (Int × String))
    (vIns : List Data) : RunResult :=
  let ms : WorkflowState :=
    { document_path := s.document_path, source := s.source,
      email_data := s.email_data, status := some "error" }
  let m := mark_document_processed_node ms
  { final := m.1, preMark := some "error", fileMarks := m.2.1, emailMarks := m.2.2,
    opens := opens, validationInputs := vIns, crashed := true }

/-- The graph from `human_verification` on: verification, then the
conditional edges to validation, billing, the inform node, and the
unconditional loop-back edge `inform_user_of_validation_error →
human_verification`; every other route funnels into
`mark_document_processed`.  One `VerifEntry` is consumed per entry into
verification, one `Option Int` per entry into the inform node. -/
def graphLoop (botId : Option String) (custW subW : WorkerOutcome) :
    WorkflowState → List VerifEntry → List (Option Int) →
    List (Int × String) → List Data → RunOutcome
  | _, [], _, opens, vIns => .stuck opens vIns
  | s, ve :: vrest, informs, opens, vIns =>
    let opens1 := opens ++ (match ve.send with | some o => [o] | none => [])
    let hv := human_verification_node botId s ve
    if hv.2 then .stuck opens1 vIns
    else
      let s1 := hv.1
      if s1.is_verified == some true then
        let vIns1 := vIns ++ (if otruthyData s1.verified_data then
          [s1.verified_data.getD []] else [])
        match validate_data_node s1 with
        | .error _ => .done (finishCrashed s1 opens1 vIns1)
        | .ok s2 =>
          if s2.is_valid_for_billing == some true then
            .done (finishAtMark (configure_billing_node s2 custW subW) opens1 vIns1)
          else
            match informs with
            | [] => .stuck opens1 vIns1
            | io :: irest =>
              let s3 := inform_user_of_validation_error_node s2 io
              graphLoop botId custW subW s3 vrest irest opens1 vIns1
      else
        .done (finishAtMark s1 opens1 vIns)

/-- One whole graph invocation: entry point `process_document`, then the
conditional edge on `extracted_data` into verification or straight to
`mark_document_processed`. -/
def runPipeline (botId : Option String) (s0 : WorkflowState) (x : ExtractOutcome)
    (verifs : List VerifEntry) (informs : List (Option Int))
    (custW subW : WorkerOutcome) : RunOutcome :=
  let s1 := process_document_node s0 x
  if otruthyData s1.extracted_data then
    graphLoop botId custW subW s1 verifs informs [] []
  else
    .done (finishAtMark s1 [] [])

/-- The initial state the driver builds for a file item. -/
def fileInput (path : String) : WorkflowState :=
  { document_path := some path, source := some "file" }

/-- The initial state the driver builds for an email item
(`metadata` is the dict returned by `process_email`). -/
def emailInput (path : String) (metadata : Data) : WorkflowState :=
  { document_path := some path, source := some "email",
    email_data := some metadata }

end GraphRunner

example :
    runPipeline none (fileInput "doc.txt")
      (.res (some [("company", vStr "Acme"), ("email", vStr "a@x.com"),
                   ("subscription", vStr "Pro Plan"), ("seats", vInt 3)]) none)
      [{ send := some (100, "C1"),
         rounds := [{ polls := [some [{ ts := some 150, user := some "U1", text := "approve" }]],
                      llm := .exn, sendTs := none }] }]
      []
      (.ok true (some [("id", vStr "cus_1")]))
      (.ok true (some [("id", vStr "sub_1")])) =
    .done { final := { document_path := some "doc.txt", source := some "file",
                       extracted_data := some [("company", vStr "Acme"), ("email", vStr "a@x.com"),
                         ("subscription", vStr "Pro Plan"), ("seats", vInt 3)],
                       verified_data := some [("company", vStr "Acme"), ("email", vStr "a@x.com"),
                         ("subscription", vStr "Pro Plan"), ("seats", vInt 3)],
                       is_verified := some true,
                       original_slack_thread_ts := some 100, slack_channel_id := some "C1",
                       is_valid_for_billing := some true,
                       customer_id := some (vStr "cus_1"), subscription_id := some (vStr "sub_1"),
                       configuration_result := true,
                       status := some "completed" },
            preMark := some "success", fileMarks := ["doc.txt"], emailMarks := [],
            opens := [(100, "C1")],
            validationInputs := [[("company", vStr "Acme"), ("email", vStr "a@x.com"),
              ("subscription", vStr "Pro Plan"), ("seats", vInt 3)]],
            crashed := false } := by decide

section Claims
/-! ## Claim theorems -/

/-- `missingFields d` is empty exactly when every canonical field has a
variation carrying an accepted value. -/
theorem missingFields_eq_nil_iff (d : Data) :
    missingFields d = [] ↔
      requiredFields.all (fun p => (findVariation d p.2).isSome) = true := by
  simp [missingFields, List.all_eq_true, Option.isNone_iff_eq_none,
    Option.isSome_iff_ne_none, List.filter_eq_nil_iff]

/-- C6 (counterexample): on the mapping
`{customer_name: "Acme", email: "a@x.com", plan: "plan_zzz"}` validation
passes, although `"plan_zzz"` does not map — case-insensitively with the
literal suffix `"plan"` ignored — to any known plan identifier, so the
claimed if-and-only-if characterisation is false on this input. -/
theorem c6_validate_iff_counterexample :
    validate_data [("customer_name", vStr "Acme"), ("email", vStr "a@x.com"),
      ("plan", vStr "plan_zzz")] = .ok (true, none)
    ∧ specValidC6 [("customer_name", vStr "Acme"), ("email", vStr "a@x.com"),
      ("plan", vStr "plan_zzz")] = false := by
  constructor
  · decide
  · decide

/-- C6 (amended): validation passes iff every canonical field is present
under one of its synonym keys with a value outside
`[None, "", "N/A", "null"]` and the found plan value is mapped by
`_get_plan_id` — through its case-insensitive six-entry table (the three
plan names with or without the literal suffix `" plan"`) or passed
through when, lowercased, it begins with `"plan_"`; and when canonical
fields are missing the failure message names exactly those fields. -/
theorem c6_validate_characterisation (d : Data) :
    (validate_data d = .ok (true, none) ↔ codeValidC6 d = true)
    ∧ (missingFields d ≠ [] →
        validate_data d = .ok (false,
          some ("Missing required fields (checked variations): "
            ++ joinComma (missingFields d) ++ ". Extracted keys: "
            ++ pyKeysRepr (d.map (·.1))))) := by
  constructor
  · by_cases hm : missingFields d = []
    · have hall := (missingFields_eq_nil_iff d).mp hm
      unfold validate_data codeValidC6
      rcases hg : get_plan_id ((foundPlan d).getD vNull) with e | pid
      · simp [hm, hg, hall]
      · rcases pid with _ | pid <;> simp [hm, hg, hall]
    · have hv : validate_data d = .ok (false,
          some ("Missing required fields (checked variations): "
            ++ joinComma (missingFields d) ++ ". Extracted keys: "
            ++ pyKeysRepr (d.map (·.1)))) := by
        unfold validate_data
        simp [List.isEmpty_iff, hm]
      rw [hv]
      unfold codeValidC6
      constructor
      · intro h
        simp at h
      · intro h
        have h1 := (Bool.and_eq_true _ _).mp h
        exact absurd ((missingFields_eq_nil_iff d).mpr h1.1) hm
  · intro hm
    unfold validate_data
    simp [List.isEmpty_iff, hm]

/-- C6 (witness for the amended theorem). -/
theorem c6_validate_characterisation_witness :
    validate_data [("company", vStr "Acme")] = .ok (false,
      some "Missing required fields (checked variations): email, plan_type. Extracted keys: [\x27company\x27]") :=
  (c6_validate_characterisation [("company", vStr "Acme")]).2 (by decide)

/-- If none of the fallback keys is present, the whole `or`-chain is
`None`. -/
theorem chainVal_eq_none (d : Data) (ks : List String)
    (h : ∀ k ∈ ks, dgetLower d k = none) : chainVal d ks = none := by
  induction ks with
  | nil => rfl
  | cons k rest ih =>
    cases rest with
    | nil => simpa [chainVal] using h k (by simp)
    | cons k2 r2 =>
      have hk := h k (by simp)
      have hr := ih (fun x hx => h x (by simp [hx]))
      simp [chainVal, hk, hr, pyOr, otruthy]

/-- C10: when the seat/user count is absent under every accepted synonym
key, or the selected value cannot be coerced by `int(...)`, the
`user_count` falls back to 1 and any CreateSubscription call is issued
with `user_count = 1`. -/
theorem c10_seat_count_defaults_to_one (d : Data) (custW subW : WorkerOutcome)
    (h : (∀ k ∈ userCountKeys, dgetLower d k = none)
         ∨ intCoerce (getUserCountVal d) = none) :
    userCountInt d = 1
    ∧ ∀ a, (configure_billing d custW subW).subscriptionCall = some a →
        a.user_count = 1 := by
  have h1 : userCountInt d = 1 := by
    rcases h with h | h
    · have hc := chainVal_eq_none d userCountKeys h
      simp [userCountInt, getUserCountVal, hc, intCoerce]
    · simp [userCountInt, h]
  refine ⟨h1, ?_⟩
  intro a ha
  unfold configure_billing at ha
  repeat' split at ha
  all_goals (try simp at ha)
  all_goals (repeat' split at ha)
  all_goals (try simp at ha)
  all_goals (subst ha; exact h1)

/-- Concrete data for the C10 witness: the seat value `"three"` is not
coercible by `int(...)`. -/
def c10Data : Data :=
  [("company", vStr "Acme"), ("email", vStr "a@x.com"),
   ("subscription", vStr "Pro Plan"), ("seats", vStr "three")]

/-- The subscription-call arguments the C10 witness run issues. -/
def c10Args : SubscriptionArgs :=
  { customer_id := vStr "cus_1", plan_id := "plan_pro_monthly",
    user_count := 1, addons := vList ValueList.nil }

/-- C10 (witness). -/
theorem c10_seat_count_defaults_to_one_witness :
    userCountInt c10Data = 1 ∧ c10Args.user_count = 1 :=
  ⟨(c10_seat_count_defaults_to_one c10Data (.ok true (some [("id", vStr "cus_1")]))
      (.ok true (some [("id", vStr "sub_1")])) (Or.inr (by decide))).1,
   (c10_seat_count_defaults_to_one c10Data (.ok true (some [("id", vStr "cus_1")]))
      (.ok true (some [("id", vStr "sub_1")])) (Or.inr (by decide))).2 c10Args (by decide)⟩

/-- A reply returned by `pollScan` carries a timestamp strictly newer
than the marker it filtered against. -/
theorem pollScan_ts_gt (botId : Option String) (minTs : Int) :
    ∀ rs r, pollScan botId minTs rs = some r → ∃ t, r.ts = some t ∧ minTs < t := by
  intro rs
  induction rs with
  | nil => intro r h; exact absurd h (by simp [pollScan])
  | cons x xs ih =>
    intro r h
    unfold pollScan at h
    rcases hx : x.ts with _ | t
    · rw [hx] at h
      exact ih r h
    · rw [hx] at h
      split at h
      · exact ih r h
      · split at h
        · split at h
          · exact ih r h
          · split at h
            · exact ih r h
            · cases h
              rename_i t2 heq hlt _ _
              injection heq with he
              exact ⟨t, hx, by omega⟩
        · exact ih r h

/-- A reply returned by `wait_for_response` carries a timestamp strictly
newer than `min_reply_ts`. -/
theorem wait_for_response_ts_gt (botId : Option String) (minTs : Int) :
    ∀ polls r, wait_for_response botId minTs polls = some r →
      ∃ t, r.ts = some t ∧ minTs < t := by
  intro polls
  induction polls with
  | nil => intro r h; exact absurd h (by simp [wait_for_response])
  | cons p rest ih =>
    intro r h
    cases p with
    | none => exact absurd h (by simp [wait_for_response])
    | some rs =>
      unfold wait_for_response at h
      rcases hp : pollScan botId minTs (sortReplies rs) with _ | r0
      · rw [hp] at h
        exact ih r h
      · rw [hp] at h
        cases h
        exact pollScan_ts_gt botId minTs _ _ hp

/-- C4: any reply `wait_for_response` returns is strictly newer than
`last_interaction_marker` (a reply exactly at the marker is ignored),
and once the marker has advanced to that reply's timestamp, no later
wait can return a reply carrying the same timestamp — no reply is
processed twice across polling cycles. -/
theorem c4_reply_marker_strictly_greater (botId : Option String) (minTs : Int)
    (polls : List (Option (List Reply))) (r : Reply) (t : Int)
    (m2 : Int) (polls2 : List (Option (List Reply))) (r2 : Reply)
    (h : wait_for_response botId minTs polls = some r)
    (ht : r.ts = some t)
    (hm : t ≤ m2)
    (h2 : wait_for_response botId m2 polls2 = some r2) :
    minTs < t ∧ r2.ts ≠ some t := by
  obtain ⟨t1, ht1, hlt1⟩ := wait_for_response_ts_gt botId minTs polls r h
  rw [ht] at ht1
  cases ht1
  obtain ⟨t2, ht2, hlt2⟩ := wait_for_response_ts_gt botId m2 polls2 r2 h2
  refine ⟨hlt1, ?_⟩
  intro hcontra
  rw [hcontra] at ht2
  cases ht2
  omega

/-- C4 (witness): a reply at timestamp 5 against marker 0 is returned
and is strictly newer; after the marker advances to 5, a later wait
returning the timestamp-9 reply does not return timestamp 5 again. -/
theorem c4_reply_marker_strictly_greater_witness :
    (0 : Int) < 5
    ∧ ({ ts := some 9, user := some "U1", text := "again" } : Reply).ts ≠ some 5 :=
  c4_reply_marker_strictly_greater none 0
    [some [{ ts := some 5, user := some "U1", text := "hello" }]]
    { ts := some 5, user := some "U1", text := "hello" } 5 5
    [some [{ ts := some 9, user := some "U1", text := "again" }]]
    { ts := some 9, user := some "U1", text := "again" }
    (by decide) (by decide) (by decide) (by decide)

/-- `graphLoop` only ever appends to the validation-input trace it is
given. -/
theorem graphLoop_vIns_extends (botId : Option String) (custW subW : WorkerOutcome) :
    ∀ verifs informs s opens vIns,
      ∃ tail, (graphLoop botId custW subW s verifs informs opens vIns).vIns
        = vIns ++ tail := by
  intro verifs
  induction verifs with
  | nil =>
    intro informs s opens vIns
    exact ⟨[], by simp [graphLoop, RunOutcome.vIns]⟩
  | cons ve vrest ih =>
    intro informs s opens vIns
    by_cases hstuck : (human_verification_node botId s ve).2 = true
    · exact ⟨[], by simp [graphLoop, hstuck, RunOutcome.vIns]⟩
    · by_cases hver : (human_verification_node botId s ve).1.is_verified = some true
      · rcases hval : validate_data_node (human_verification_node botId s ve).1 with e | s2
        · exact ⟨(if otruthyData (human_verification_node botId s ve).1.verified_data then
              [(human_verification_node botId s ve).1.verified_data.getD []] else []), by
            simp [graphLoop, hstuck, hver, hval, RunOutcome.vIns, finishCrashed]⟩
        · by_cases hvalid : s2.is_valid_for_billing = some true
          · exact ⟨(if otruthyData (human_verification_node botId s ve).1.verified_data then
                [(human_verification_node botId s ve).1.verified_data.getD []] else []), by
              simp [graphLoop, hstuck, hver, hval, hvalid, RunOutcome.vIns, finishAtMark]⟩
          · cases informs with
            | nil =>
              exact ⟨(if otruthyData (human_verification_node botId s ve).1.verified_data then
                  [(human_verification_node botId s ve).1.verified_data.getD []] else []), by
                simp [graphLoop, hstuck, hver, hval, hvalid, RunOutcome.vIns]⟩
            | cons io irest =>
              obtain ⟨tail, htail⟩ := ih irest (inform_user_of_validation_error_node s2 io)
                (opens ++ (match ve.send with | some o => [o] | none => []))
                (vIns ++ (if otruthyData (human_verification_node botId s ve).1.verified_data then
                  [(human_verification_node botId s ve).1.verified_data.getD []] else []))
              refine ⟨(if otruthyData (human_verification_node botId s ve).1.verified_data then
                [(human_verification_node botId s ve).1.verified_data.getD []] else []) ++ tail, ?_⟩
              have hred : graphLoop botId custW subW s (ve :: vrest) (io :: irest) opens vIns
                  = graphLoop botId custW subW (inform_user_of_validation_error_node s2 io)
                      vrest irest
                      (opens ++ (match ve.send with | some o => [o] | none => []))
                      (vIns ++ (if otruthyData (human_verification_node botId s ve).1.verified_data then
                        [(human_verification_node botId s ve).1.verified_data.getD []] else [])) := by
                simp [graphLoop, hstuck, hver, hval, hvalid]
              rw [hred, htail, List.append_assoc]
      · exact ⟨[], by
          simp [graphLoop, hstuck, hver, RunOutcome.vIns, finishAtMark]⟩

/-- C7: when the human approves verbatim on the first reply (no revision
cycle), `request_and_wait_for_verification` returns the initial data
unchanged, and the run's first recorded validation input is exactly the
extracted data that was sent for verification. -/
theorem c7_approval_passes_data_unchanged (botId : Option String) (d : Data)
    (p : String) (ts : Int) (ch : String) (r : Round) (rest : List Round)
    (ves : List VerifEntry) (informs : List (Option Int))
    (custW subW : WorkerOutcome) (reply : Reply)
    (hd : d ≠ [])
    (hw : wait_for_response botId ts r.polls = some reply)
    (ha : approvalMatch reply.text = true) :
    (request_and_wait_for_verification botId 5 d (some (ts, ch)) (r :: rest)).1
      = .success d ts ch
    ∧ (runPipeline botId (fileInput p) (.res (some d) none)
        ({ send := some (ts, ch), rounds := r :: rest } :: ves) informs custW subW).vIns.head?
      = some d := by
  have h1 : request_and_wait_for_verification botId 5 d (some (ts, ch)) (r :: rest)
      = (.success d ts ch, []) := by
    unfold request_and_wait_for_verification verifLoop
    rw [hw]
    simp [process_response, ha]
  refine ⟨by rw [h1], ?_⟩
  have hex : otruthyData (some d) = true := by
    simp [otruthyData, hd]
  have hrun : runPipeline botId (fileInput p) (.res (some d) none)
      ({ send := some (ts, ch), rounds := r :: rest } :: ves) informs custW subW
      = graphLoop botId custW subW
          { document_path := some p, source := some "file",
            extracted_data := some d, status := some "processing" }
          ({ send := some (ts, ch), rounds := r :: rest } :: ves) informs [] [] := by
    unfold runPipeline
    have hpd : process_document_node (fileInput p) (.res (some d) none)
        = { document_path := some p, source := some "file",
            extracted_data := some d, status := some "processing" } := rfl
    rw [hpd]
    rw [if_pos (by simpa using hex)]
  rw [hrun]
  have hnode : human_verification_node botId
      { document_path := some p, source := some "file",
        extracted_data := some d, status := some "processing" }
      { send := some (ts, ch), rounds := r :: rest }
      = ({ document_path := some p, source := some "file",
           extracted_data := some d, verified_data := some d,
           is_verified := some true, original_slack_thread_ts := some ts,
           slack_channel_id := some ch, verification_error := none,
           status := some "processing" }, false) := by
    unfold human_verification_node
    rw [if_neg (by simpa using hex)]
    dsimp only
    simp only [Option.getD_some]
    rw [h1]
  rcases hval : validate_data_node
      { document_path := some p, source := some "file",
        extracted_data := some d, verified_data := some d,
        is_verified := some true, original_slack_thread_ts := some ts,
        slack_channel_id := some ch, verification_error := none,
        status := some "processing" } with e | s2
  · simp [graphLoop, hnode, hval, RunOutcome.vIns, finishCrashed, hex]
  · by_cases hvalid : s2.is_valid_for_billing = some true
    · simp [graphLoop, hnode, hval, hvalid, RunOutcome.vIns, finishAtMark, hex]
    · cases informs with
      | nil => simp [graphLoop, hnode, hval, hvalid, RunOutcome.vIns, hex]
      | cons io irest =>
        obtain ⟨tail, htail⟩ := graphLoop_vIns_extends botId custW subW ves irest
          (inform_user_of_validation_error_node s2 io) [(ts, ch)] [d]
        simp [graphLoop, hnode, hval, hvalid, hex, htail]

/-- C7 (witness): a concrete first-reply approval run. -/
theorem c7_approval_passes_data_unchanged_witness :
    (request_and_wait_for_verification none 5 [("company", vStr "Acme")] (some (100, "C1"))
      [{ polls := [some [{ ts := some 150, user := some "U1", text := "approve" }]],
         llm := .exn, sendTs := none }]).1
      = .success [("company", vStr "Acme")] 100 "C1"
    ∧ (runPipeline none (fileInput "doc.txt") (.res (some [("company", vStr "Acme")]) none)
        [{ send := some (100, "C1"),
           rounds := [{ polls := [some [{ ts := some 150, user := some "U1", text := "approve" }]],
                        llm := .exn, sendTs := none }] }] [] (.exn "w") (.exn "w")).vIns.head?
      = some [("company", vStr "Acme")] :=
  c7_approval_passes_data_unchanged none [("company", vStr "Acme")] "doc.txt" 100 "C1"
    { polls := [some [{ ts := some 150, user := some "U1", text := "approve" }]],
      llm := .exn, sendTs := none } [] [] [] (.exn "w") (.exn "w")
    { ts := some 150, user := some "U1", text := "approve" }
    (by decide) (by decide) (by decide)

/-- C8: a reply interpreted as unclear keeps the loop waiting: a
clarification follow-up is sent in the same thread and channel, the
interaction marker advances to the follow-up's timestamp, the data under
review is unchanged, and the revision-retry counter is not incremented. -/
theorem c8_unclear_keeps_waiting (botId : Option String) (maxR : Nat)
    (messageTs : Int) (channelId : String) (d : Data) (lastTs : Int)
    (retries : Nat) (r : Round) (rest : List Round) (reply : Reply) (cts : Int)
    (hr : retries < maxR)
    (hw : wait_for_response botId lastTs r.polls = some reply)
    (hu : process_response reply d r.llm = (.unclear, some d))
    (hs : r.sendTs = some cts) :
    verifLoop botId maxR messageTs channelId d lastTs retries (r :: rest)
      = ((verifLoop botId maxR messageTs channelId d cts retries rest).1,
         { channel := channelId, thread := messageTs, ts := cts }
           :: (verifLoop botId maxR messageTs channelId d cts retries rest).2) := by
  conv_lhs => rw [verifLoop]
  rw [if_neg (by omega)]
  rw [hw]
  dsimp only
  rw [hu]
  dsimp only
  rw [hs]

/-- C8 (witness): an unclear reply at ts 150 with a clarification sent
at ts 160. -/
theorem c8_unclear_keeps_waiting_witness :
    verifLoop none 5 100 "C1" [("company", vStr "Acme")] 100 0
      [{ polls := [some [{ ts := some 150, user := some "U1", text := "hmm maybe" }]],
         llm := .res none false (some "User request too vague"), sendTs := some 160 }]
      = ((verifLoop none 5 100 "C1" [("company", vStr "Acme")] 160 0 []).1,
         { channel := "C1", thread := 100, ts := 160 }
           :: (verifLoop none 5 100 "C1" [("company", vStr "Acme")] 160 0 []).2) :=
  c8_unclear_keeps_waiting none 5 100 "C1" [("company", vStr "Acme")] 100 0
    { polls := [some [{ ts := some 150, user := some "U1", text := "hmm maybe" }]],
      llm := .res none false (some "User request too vague"), sendTs := some 160 } []
    { ts := some 150, user := some "U1", text := "hmm maybe" } 160
    (by decide) (by decide) (by decide) (by decide)

/-- The file-ledger updates of a run, finished or not. -/
def RunOutcome.fileMarksOf : RunOutcome → List String
  | .done r => r.fileMarks
  | .stuck _ _ => []

/-- A change-cycle step of the verification loop: the wait succeeds, the
reply is a successfully applied change request, and the updated data is
re-sent; the loop recurses with the new data, the bot reply's marker and
an incremented retry counter, recording the follow-up. -/
theorem verifLoop_changes_step (botId : Option String) (maxR : Nat)
    (messageTs : Int) (channelId : String) (d : Data) (lastTs : Int)
    (retries : Nat) (r : Round) (rest : List Round) (reply : Reply)
    (nd : Data) (rts : Int)
    (hr : retries < maxR)
    (hw : wait_for_response botId lastTs r.polls = some reply)
    (hc : process_response reply d r.llm = (.changes_requested, some nd))
    (hnd : nd ≠ [])
    (hs : r.sendTs = some rts) :
    verifLoop botId maxR messageTs channelId d lastTs retries (r :: rest)
      = ((verifLoop botId maxR messageTs channelId nd rts (retries + 1) rest).1,
         { channel := channelId, thread := messageTs, ts := rts }
           :: (verifLoop botId maxR messageTs channelId nd rts (retries + 1) rest).2) := by
  conv_lhs => rw [verifLoop]
  rw [if_neg (by omega)]
  rw [hw]
  dsimp only
  rw [hc]
  dsimp only
  rw [if_neg (by simpa [List.isEmpty_iff] using hnd)]
  rw [hs]

/-- Whether every round of a script is a successfully applied
change-request with respect to the state the loop actually reaches. -/
def ChangesTrajectory (botId : Option String) : Data → Int → List Round → Bool
  | _, _, [] => true
  | d, lastTs, r :: rest =>
    match wait_for_response botId lastTs r.polls with
    | none => false
    | some reply =>
      match process_response reply d r.llm with
      | (.changes_requested, some nd) =>
        !nd.isEmpty &&
          (match r.sendTs with
           | some rts => ChangesTrajectory botId nd rts rest
           | none => false)
      | _ => false

/-- A script of change-cycles at least as long as the remaining retry
budget exhausts it: the loop returns `None` (`failure`). -/
theorem verifLoop_exhausts (botId : Option String) (maxR : Nat)
    (msgTs : Int) (ch : String) :
    ∀ rounds (d : Data) (lastTs : Int) (retries : Nat),
      ChangesTrajectory botId d lastTs rounds = true →
      maxR ≤ retries + rounds.length →
      (verifLoop botId maxR msgTs ch d lastTs retries rounds).1 = .failure := by
  intro rounds
  induction rounds with
  | nil =>
    intro d lastTs retries _ hlen
    simp only [List.length_nil, Nat.add_zero] at hlen
    rw [verifLoop]
    rw [if_pos hlen]
  | cons r rest ih =>
    intro d lastTs retries htraj hlen
    by_cases hguard : maxR ≤ retries
    · conv_lhs => rw [verifLoop]
      rw [if_pos hguard]
    · unfold ChangesTrajectory at htraj
      rcases hwx : wait_for_response botId lastTs r.polls with _ | reply
      · rw [hwx] at htraj
        cases htraj
      · rw [hwx] at htraj
        dsimp only at htraj
        rcases hpr : process_response reply d r.llm with ⟨st, pd⟩
        rw [hpr] at htraj
        cases st with
        | approved => cases htraj
        | unclear => cases htraj
        | error => cases htraj
        | changes_requested =>
          cases pd with
          | none => cases htraj
          | some nd =>
            rcases hsd : r.sendTs with _ | rts
            · rw [hsd] at htraj
              simp at htraj
            · rw [hsd] at htraj
              simp only [Bool.and_eq_true] at htraj
              obtain ⟨hnd, htraj2⟩ := htraj
              rw [verifLoop_changes_step botId maxR msgTs ch d lastTs retries r rest reply
                nd rts (by omega) hwx hpr (by simpa [List.isEmpty_iff] using hnd) hsd]
              exact ih nd rts (retries + 1) htraj2 (by simp at hlen; omega)

/-- C2 (amended): exhausting the `max_retries = 5` change-cycles with no
approval makes `request_and_wait_for_verification` return `None`, which
the verification node maps onto exactly the same failure state a timeout
produces — status `"error"`, `is_verified = False` and the generic
message "Verification failed or timed out in Slack"; no
`validation-error-exhausted` tag exists.  The run does not succeed: it
terminates through `mark_document_processed` with the error status and
its file-ledger entry is written. -/
theorem c2_exhaustion_fails_like_timeout (botId : Option String) (p : String)
    (d : Data) (ts : Int) (ch : String) (rounds : List Round)
    (s : WorkflowState) (ves : List VerifEntry) (informs : List (Option Int))
    (custW subW : WorkerOutcome)
    (hd : d ≠ [])
    (hs : s.extracted_data = some d)
    (htraj : ChangesTrajectory botId d ts rounds = true)
    (hlen : 5 ≤ rounds.length) :
    (request_and_wait_for_verification botId 5 d (some (ts, ch)) rounds).1 = .failure
    ∧ (human_verification_node botId s ⟨some (ts, ch), rounds⟩).1.status = some "error"
    ∧ (human_verification_node botId s ⟨some (ts, ch), rounds⟩).1.is_verified = some false
    ∧ (human_verification_node botId s ⟨some (ts, ch), rounds⟩).1.verification_error
        = some "Verification failed or timed out in Slack"
    ∧ (runPipeline botId (fileInput p) (.res (some d) none)
        (⟨some (ts, ch), rounds⟩ :: ves) informs custW subW).preMarkOf
        = some (some "error")
    ∧ (runPipeline botId (fileInput p) (.res (some d) none)
        (⟨some (ts, ch), rounds⟩ :: ves) informs custW subW).fileMarksOf = [p] := by
  have hfail : (request_and_wait_for_verification botId 5 d (some (ts, ch)) rounds).1
      = .failure := by
    unfold request_and_wait_for_verification
    exact verifLoop_exhausts botId 5 ts ch rounds d ts 0 htraj (by omega)
  have hpair : request_and_wait_for_verification botId 5 d (some (ts, ch)) rounds
      = (.failure, (request_and_wait_for_verification botId 5 d (some (ts, ch)) rounds).2) := by
    rw [← hfail]
  have hnode : ∀ s2 : WorkflowState, s2.extracted_data = some d →
      human_verification_node botId s2 ⟨some (ts, ch), rounds⟩
      = ({ s2 with
            is_verified := some false, verified_data := none,
            verification_error := some "Verification failed or timed out in Slack",
            status := some "error",
            error_message := some ("Human verification via Slack failed or timed out for "
              ++ (s2.document_path.getD "Unknown document") ++ ".") }, false) := by
    intro s2 hs2
    unfold human_verification_node
    rw [if_neg (by simp [hs2, otruthyData, hd])]
    dsimp only
    rw [hs2]
    simp only [Option.getD_some]
    rw [hpair]
  have hsnode := hnode s hs
  have hrun : runPipeline botId (fileInput p) (.res (some d) none)
      (⟨some (ts, ch), rounds⟩ :: ves) informs custW subW
      = graphLoop botId custW subW
          { document_path := some p, source := some "file",
            extracted_data := some d, status := some "processing" }
          (⟨some (ts, ch), rounds⟩ :: ves) informs [] [] := by
    unfold runPipeline
    have hpd : process_document_node (fileInput p) (.res (some d) none)
        = { document_path := some p, source := some "file",
            extracted_data := some d, status := some "processing" } := rfl
    rw [hpd]
    rw [if_pos (by simp [otruthyData, hd])]
  have hgnode := hnode
    { document_path := some p, source := some "file",
      extracted_data := some d, status := some "processing" } rfl
  refine ⟨hfail, by rw [hsnode], by rw [hsnode], by rw [hsnode], ?_, ?_⟩
  · rw [hrun]
    simp [graphLoop, hgnode, RunOutcome.preMarkOf, finishAtMark]
  · rw [hrun]
    simp [graphLoop, hgnode, RunOutcome.fileMarksOf, finishAtMark,
      mark_document_processed_node]

/-- Five consecutive successfully-applied change-request rounds:
replies strictly newer than the evolving marker, the LLM applying each
change, and every updated-data re-send succeeding. -/
def c2Rounds : List Round :=
  [{ polls := [some [{ ts := some 110, user := some "U1", text := "change plan to pro" }]],
     llm := .res (some [("company", vStr "Acme"), ("plan", vStr "pro")]) true none,
     sendTs := some 120 },
   { polls := [some [{ ts := some 130, user := some "U1", text := "change plan to pro" }]],
     llm := .res (some [("company", vStr "Acme"), ("plan", vStr "pro")]) true none,
     sendTs := some 140 },
   { polls := [some [{ ts := some 150, user := some "U1", text := "change plan to pro" }]],
     llm := .res (some [("company", vStr "Acme"), ("plan", vStr "pro")]) true none,
     sendTs := some 160 },
   { polls := [some [{ ts := some 170, user := some "U1", text := "change plan to pro" }]],
     llm := .res (some [("company", vStr "Acme"), ("plan", vStr "pro")]) true none,
     sendTs := some 180 },
   { polls := [some [{ ts := some 190, user := some "U1", text := "change plan to pro" }]],
     llm := .res (some [("company", vStr "Acme"), ("plan", vStr "pro")]) true none,
     sendTs := some 200 }]

/-- The state in which the verification node runs for the C2 scripts. -/
def c2State : WorkflowState :=
  { document_path := some "doc.txt", source := some "file",
    extracted_data := some [("company", vStr "Acme")],
    status := some "processing" }

/-- C2 (counterexample): exhausting the five change-cycles with no
approval yields the very same failure reason a pure timeout yields —
the generic "Verification failed or timed out in Slack" — and no
`validation-error-exhausted` tag, refuting the claimed distinction. -/
theorem c2_exhaustion_reason_counterexample :
    (human_verification_node none c2State ⟨some (100, "C1"), c2Rounds⟩).1.verification_error
      = some "Verification failed or timed out in Slack"
    ∧ (human_verification_node none c2State ⟨some (100, "C1"), c2Rounds⟩).1.verification_error
      = (human_verification_node none c2State
          ⟨some (100, "C1"), [{ polls := [], llm := .exn, sendTs := none }]⟩).1.verification_error
    ∧ (human_verification_node none c2State ⟨some (100, "C1"), c2Rounds⟩).1.verification_error
      ≠ some "validation-error-exhausted" := by
  exact ⟨by decide, by decide, by decide⟩

/-- C2 (witness for the amended theorem). -/
theorem c2_exhaustion_fails_like_timeout_witness :
    (request_and_wait_for_verification none 5 [("company", vStr "Acme")]
      (some (100, "C1")) c2Rounds).1 = .failure
    ∧ (human_verification_node none c2State ⟨some (100, "C1"), c2Rounds⟩).1.status
        = some "error"
    ∧ (human_verification_node none c2State ⟨some (100, "C1"), c2Rounds⟩).1.is_verified
        = some false
    ∧ (human_verification_node none c2State ⟨some (100, "C1"), c2Rounds⟩).1.verification_error
        = some "Verification failed or timed out in Slack"
    ∧ (runPipeline none (fileInput "doc.txt")
        (.res (some [("company", vStr "Acme")]) none)
        (⟨some (100, "C1"), c2Rounds⟩ :: []) [] (.exn "w") (.exn "w")).preMarkOf
        = some (some "error")
    ∧ (runPipeline none (fileInput "doc.txt")
        (.res (some [("company", vStr "Acme")]) none)
        (⟨some (100, "C1"), c2Rounds⟩ :: []) [] (.exn "w") (.exn "w")).fileMarksOf
        = ["doc.txt"] :=
  c2_exhaustion_fails_like_timeout none "doc.txt" [("company", vStr "Acme")] 100 "C1"
    c2Rounds c2State [] [] (.exn "w") (.exn "w")
    (by decide) (by decide) (by decide) (by decide)

/-- C3: an extraction call that returns the empty dict with no error
(`{"extracted_data": {}, "error": null}`) does not fail the run: the
node keeps status `"processing"` and sets no extraction error, the
conditional edge routes the falsy dict to `mark_document_processed`,
and that node — seeing a status outside `{"success", "error"}` — skips
the ledger update, so the run ends with no terminal failure state and
no ledger write, against both the claim and the mark node's own
stated expectation. -/
theorem c3_empty_extraction_not_failed :
    runPipeline none (fileInput "doc.txt") (.res (some []) none) [] []
      (.exn "w") (.exn "w")
      = .done { final := { document_path := some "doc.txt", source := some "file",
                           extracted_data := some [], status := some "completed" },
                preMark := some "processing", fileMarks := [], emailMarks := [],
                opens := [], validationInputs := [], crashed := false } := by
  decide

/-- The extracted data of the C9 scripts: all fields valid. -/
def c9Data : Data :=
  [("company", vStr "Acme"), ("email", vStr "a@x.com"),
   ("subscription", vStr "Pro Plan"), ("seats", vInt 3)]

/-- First-reply approval entry for the C9 run. -/
def c9Entry : VerifEntry :=
  { send := some (100, "C1"),
    rounds := [{ polls := [some [{ ts := some 150, user := some "U1", text := "approve" }]],
                 llm := .exn, sendTs := none }] }

/-- C9 (counterexample): CreateCustomer succeeds with id `cus_1`,
CreateSubscription raises; `configure_billing`'s returned dict does
record the obtained customer id, but the run's final state does not —
its `customer_id` is `None` while the failure is reported. -/
theorem c9_customer_id_dropped_counterexample :
    (configure_billing c9Data (.ok true (some [("id", vStr "cus_1")]))
        (.exn "boom")).result.customer_id = some (vStr "cus_1")
    ∧ runPipeline none (fileInput "doc.txt") (.res (some c9Data) none)
        [c9Entry] [] (.ok true (some [("id", vStr "cus_1")])) (.exn "boom")
      = .done { final := { document_path := some "doc.txt", source := some "file",
                           extracted_data := some c9Data, verified_data := some c9Data,
                           is_verified := some true,
                           original_slack_thread_ts := some 100,
                           slack_channel_id := some "C1",
                           is_valid_for_billing := some true,
                           customer_id := none, subscription_id := none,
                           configuration_result := false,
                           configuration_error := some "boom",
                           status := some "completed",
                           error_message := some "Billing configuration failed: boom" },
                preMark := some "error", fileMarks := ["doc.txt"], emailMarks := [],
                opens := [(100, "C1")], validationInputs := [c9Data],
                crashed := false } := by
  exact ⟨by decide, by decide⟩

/-- C9 (amended): when CreateCustomer succeeds with a truthy id and
CreateSubscription raises, the run fails with the provisioning error:
`configure_billing`'s returned dict records the obtained customer id
beside `configuration_error`, but the orchestrator's error branch does
not copy it into the run state — the state's `customer_id` is left
unchanged (still unset), with status `"error"` and the error message
attached. -/
theorem c9_provisioning_failure_keeps_id_out_of_state (d cv : Data) (m : String)
    (s : WorkflowState) (pid : String)
    (hname : otruthy (chainVal d nameKeys) = true)
    (hemail : otruthy (chainVal d emailKeys) = true)
    (hplan : otruthy (chainVal d planKeys) = true)
    (hpid : planMapGet (strTrim (strLower ((chainVal d planKeys).getD vNull).pyStr))
      = some pid)
    (hd : d ≠ [])
    (hcv : otruthy (dget cv "id") = true)
    (hm : m ≠ "")
    (hsv : s.verified_data = some d) :
    (configure_billing d (.ok true (some cv)) (.exn m)).result
      = { customer_id := dget cv "id", subscription_id := none,
          configuration_result := false, configuration_error := some m }
    ∧ (configure_billing_node s (.ok true (some cv)) (.exn m)).customer_id
        = s.customer_id
    ∧ (configure_billing_node s (.ok true (some cv)) (.exn m)).status = some "error"
    ∧ (configure_billing_node s (.ok true (some cv)) (.exn m)).configuration_error
        = some m := by
  have hres : (configure_billing d (.ok true (some cv)) (.exn m)).result
      = { customer_id := dget cv "id", subscription_id := none,
          configuration_result := false, configuration_error := some m } := by
    unfold configure_billing
    simp [List.isEmpty_iff, hd, hname, hemail, hplan, hpid, hcv, billingErr]
  have hnode : configure_billing_node s (.ok true (some cv)) (.exn m)
      = { s with
          status := some "error",
          configuration_error := some m,
          error_message := some ("Billing configuration failed: " ++ m) } := by
    unfold configure_billing_node
    rw [if_neg (by simp [hsv, otruthyData, hd])]
    dsimp only
    rw [hsv]
    simp only [Option.getD_some]
    rw [hres]
    simp [struthy, String.isEmpty_iff, hm]
  exact ⟨hres, by rw [hnode], by rw [hnode], by rw [hnode]⟩

/-- The verified state the C9 witness node runs in. -/
def c9State : WorkflowState :=
  { document_path := some "doc.txt", source := some "file",
    extracted_data := some c9Data, verified_data := some c9Data,
    status := some "processing" }

/-- C9 (witness for the amended theorem). -/
theorem c9_provisioning_failure_keeps_id_out_of_state_witness :
    (configure_billing c9Data (.ok true (some [("id", vStr "cus_1")]))
        (.exn "boom")).result
      = { customer_id := dget [("id", vStr "cus_1")] "id", subscription_id := none,
          configuration_result := false, configuration_error := some "boom" }
    ∧ (configure_billing_node c9State (.ok true (some [("id", vStr "cus_1")]))
        (.exn "boom")).customer_id = c9State.customer_id
    ∧ (configure_billing_node c9State (.ok true (some [("id", vStr "cus_1")]))
        (.exn "boom")).status = some "error"
    ∧ (configure_billing_node c9State (.ok true (some [("id", vStr "cus_1")]))
        (.exn "boom")).configuration_error = some "boom" := by
  refine c9_provisioning_failure_keeps_id_out_of_state c9Data [("id", vStr "cus_1")]
    "boom" c9State "plan_pro_monthly"
    (by decide) (by decide) (by decide) (by decide) (by decide) (by decide)
    (by decide) rfl

/-- Every follow-up the verification loop sends targets the loop's own
thread (`message_ts`) and channel. -/
theorem verifLoop_followups_same_thread (botId : Option String) (maxR : Nat)
    (messageTs : Int) (channelId : String) :
    ∀ rounds (d : Data) (lastTs : Int) (retries : Nat) (f : Followup),
      f ∈ (verifLoop botId maxR messageTs channelId d lastTs retries rounds).2 →
      f.thread = messageTs ∧ f.channel = channelId := by
  intro rounds
  induction rounds with
  | nil =>
    intro d lastTs retries f hf
    rw [verifLoop] at hf
    split at hf <;> simp at hf
  | cons r rest ih =>
    intro d lastTs retries f hf
    rw [verifLoop] at hf
    repeat' split at hf
    all_goals simp at hf
    all_goals (rcases hf with hf | hf)
    all_goals first
      | (rw [hf]; exact ⟨rfl, rfl⟩)
      | (exact ih _ _ _ f hf)

/-- A successful verification result carries the loop's own
`message_ts` and channel. -/
theorem verifLoop_success_own_thread (botId : Option String) (maxR : Nat)
    (messageTs : Int) (channelId : String) :
    ∀ rounds (d : Data) (lastTs : Int) (retries : Nat) (fd : Data)
      (ots : Int) (och : String),
      (verifLoop botId maxR messageTs channelId d lastTs retries rounds).1
        = .success fd ots och →
      ots = messageTs ∧ och = channelId := by
  intro rounds
  induction rounds with
  | nil =>
    intro d lastTs retries fd ots och h
    rw [verifLoop] at h
    split at h <;> simp at h
  | cons r rest ih =>
    intro d lastTs retries fd ots och h
    rw [verifLoop] at h
    repeat' split at h
    all_goals simp at h
    all_goals first
      | (exact ⟨h.2.1.symm, h.2.2.symm⟩)
      | (exact ih _ _ _ _ _ _ h)

/-- C1 (amended): within one verification session every follow-up is
sent into that session's own thread and channel; but a (post-revision)
entry into the verification node stores the thread of its *own* fresh
`send_verification_request` — whatever conversation handle the state
already held, the node's successful result carries the new send's
`message_ts` and channel. -/
theorem c1_session_thread_behavior (botId : Option String) (maxR : Nat)
    (d : Data) (ts : Int) (ch : String) (rounds : List Round) (s : WorkflowState)
    (hd : d ≠ [])
    (hs : s.extracted_data = some d)
    (hnstuck : (request_and_wait_for_verification botId 5 d (some (ts, ch)) rounds).1
      ≠ .stuck)
    (hver : (human_verification_node botId s ⟨some (ts, ch), rounds⟩).1.is_verified
      = some true) :
    (∀ f ∈ (request_and_wait_for_verification botId maxR d (some (ts, ch)) rounds).2,
        f.thread = ts ∧ f.channel = ch)
    ∧ (human_verification_node botId s ⟨some (ts, ch), rounds⟩).1.original_slack_thread_ts
        = some ts
    ∧ (human_verification_node botId s ⟨some (ts, ch), rounds⟩).1.slack_channel_id
        = some ch := by
  refine ⟨?_, ?_⟩
  · intro f hf
    unfold request_and_wait_for_verification at hf
    exact verifLoop_followups_same_thread botId maxR ts ch rounds d ts 0 f hf
  · rcases hreq : request_and_wait_for_verification botId 5 d (some (ts, ch)) rounds
      with ⟨res, fs⟩
    have hnodeBase : human_verification_node botId s ⟨some (ts, ch), rounds⟩
        = (match (res, fs) with
           | (.success fd ots och, _) =>
             ({ s with
                  verified_data := some fd, is_verified := some true,
                  original_slack_thread_ts := some ots, slack_channel_id := some och,
                  verification_error := none, status := some "processing" }, false)
           | (.failure, _) =>
             ({ s with
                  is_verified := some false, verified_data := none,
                  verification_error := some "Verification failed or timed out in Slack",
                  status := some "error",
                  error_message := some ("Human verification via Slack failed or timed out for "
                    ++ (s.document_path.getD "Unknown document") ++ ".") }, false)
           | (.stuck, _) => (s, true)) := by
      unfold human_verification_node
      rw [if_neg (by simp [hs, otruthyData, hd])]
      dsimp only
      rw [hs]
      simp only [Option.getD_some]
      rw [hreq]
    cases res with
    | stuck =>
      exact absurd (by rw [hreq]) hnstuck
    | failure =>
      rw [hnodeBase] at hver
      simp at hver
    | success fd ots och =>
      have hv1 : (verifLoop botId 5 ts ch d ts 0 rounds).1 = .success fd ots och := by
        have : request_and_wait_for_verification botId 5 d (some (ts, ch)) rounds
            = (.success fd ots och, fs) := hreq
        exact congrArg Prod.fst this
      obtain ⟨hots, hoch⟩ :=
        verifLoop_success_own_thread botId 5 ts ch rounds d ts 0 fd ots och hv1
      rw [hnodeBase]
      subst hots
      subst hoch
      exact ⟨rfl, rfl⟩

/-- The extracted data of the C1 run: the email is missing, so the
first approval fails validation and the graph loops back. -/
def c1Data : Data := [("company", vStr "Acme")]

/-- The corrected data the human supplies in the second session. -/
def c1Data2 : Data :=
  [("company", vStr "Acme"), ("email", vStr "a@x.com"), ("plan", vStr "pro")]

/-- First verification session: thread 100, verbatim approval. -/
def c1Entry1 : VerifEntry :=
  { send := some (100, "C1"),
    rounds := [{ polls := [some [{ ts := some 150, user := some "U1", text := "approve" }]],
                 llm := .exn, sendTs := none }] }

/-- Second (post-revision) verification session: a fresh send opens
thread 200; a change-request then an approval. -/
def c1Entry2 : VerifEntry :=
  { send := some (200, "C1"),
    rounds := [{ polls := [some [{ ts := some 250, user := some "U1",
                                   text := "add email a@x.com and set plan pro" }]],
                 llm := .res (some c1Data2) true none, sendTs := some 260 },
               { polls := [some [{ ts := some 270, user := some "U1", text := "approve" }]],
                 llm := .exn, sendTs := none }] }

/-- C1 (counterexample): a run that loops back after a validation
failure opens a *second* conversation: the post-revision entry sends
into the fresh thread 200, not the stored thread 100, and two
conversation-opening sends are recorded. -/
theorem c1_new_conversation_counterexample :
    (runPipeline none (fileInput "doc.txt") (.res (some c1Data) none)
        [c1Entry1, c1Entry2] [some 180]
        (.ok true (some [("id", vStr "cus_1")]))
        (.ok true (some [("id", vStr "sub_1")]))).opensOf
      = [(100, "C1"), (200, "C1")]
    ∧ ((runPipeline none (fileInput "doc.txt") (.res (some c1Data) none)
        [c1Entry1, c1Entry2] [some 180]
        (.ok true (some [("id", vStr "cus_1")]))
        (.ok true (some [("id", vStr "sub_1")]))).finalOf.map
          (fun st => st.original_slack_thread_ts))
      = some (some 200) := by
  exact ⟨by decide, by decide⟩

/-- The state in which the post-revision entry runs: the first
session's handle (thread 100) is still stored. -/
def c1PostRevState : WorkflowState :=
  { document_path := some "doc.txt", source := some "file",
    extracted_data := some c1Data,
    original_slack_thread_ts := some 100, slack_channel_id := some "C1",
    status := some "processing" }

/-- C1 (witness for the amended theorem): in the second session the
follow-up at ts 260 went to thread 200, and the node replaced the
stored thread 100 by its own fresh thread 200. -/
theorem c1_session_thread_behavior_witness :
    ({ channel := "C1", thread := 200, ts := 260 } : Followup).thread = 200
    ∧ ({ channel := "C1", thread := 200, ts := 260 } : Followup).channel = "C1"
    ∧ (human_verification_node none c1PostRevState
        ⟨some (200, "C1"), c1Entry2.rounds⟩).1.original_slack_thread_ts = some 200
    ∧ (human_verification_node none c1PostRevState
        ⟨some (200, "C1"), c1Entry2.rounds⟩).1.slack_channel_id = some "C1" := by
  have h := c1_session_thread_behavior none 5 c1Data 200 "C1" c1Entry2.rounds
    c1PostRevState (by decide) rfl (by decide) (by decide)
  exact ⟨(h.1 _ (by decide)).1, (h.1 _ (by decide)).2, h.2.1, h.2.2⟩

/-- `process_document_node` never changes the item identity fields. -/
theorem process_document_node_core (s : WorkflowState) (x : ExtractOutcome) :
    (process_document_node s x).document_path = s.document_path
    ∧ (process_document_node s x).source = s.source
    ∧ (process_document_node s x).email_data = s.email_data := by
  unfold process_document_node
  repeat' split
  all_goals exact ⟨rfl, rfl, rfl⟩

/-- `human_verification_node` never changes the item identity fields. -/
theorem human_verification_node_core (botId : Option String) (s : WorkflowState)
    (ve : VerifEntry) :
    (human_verification_node botId s ve).1.document_path = s.document_path
    ∧ (human_verification_node botId s ve).1.source = s.source
    ∧ (human_verification_node botId s ve).1.email_data = s.email_data := by
  unfold human_verification_node
  repeat' split
  all_goals try exact ⟨rfl, rfl, rfl⟩
  all_goals (dsimp only; repeat' split)
  all_goals exact ⟨rfl, rfl, rfl⟩

/-- `validate_data_node` never changes the item identity fields. -/
theorem validate_data_node_core (s s2 : WorkflowState)
    (h : validate_data_node s = .ok s2) :
    s2.document_path = s.document_path
    ∧ s2.source = s.source
    ∧ s2.email_data = s.email_data := by
  unfold validate_data_node at h
  repeat' split at h
  all_goals (first
    | (injection h with h2; subst h2; exact ⟨rfl, rfl, rfl⟩)
    | injection h)

/-- `inform_user_of_validation_error_node` never changes the item
identity fields. -/
theorem inform_node_core (s : WorkflowState) (io : Option Int) :
    (inform_user_of_validation_error_node s io).document_path = s.document_path
    ∧ (inform_user_of_validation_error_node s io).source = s.source
    ∧ (inform_user_of_validation_error_node s io).email_data = s.email_data := by
  unfold inform_user_of_validation_error_node
  repeat' split
  all_goals exact ⟨rfl, rfl, rfl⟩

/-- `configure_billing_node` never changes the item identity fields. -/
theorem configure_billing_node_core (s : WorkflowState) (custW subW : WorkerOutcome) :
    (configure_billing_node s custW subW).document_path = s.document_path
    ∧ (configure_billing_node s custW subW).source = s.source
    ∧ (configure_billing_node s custW subW).email_data = s.email_data := by
  unfold configure_billing_node
  repeat' split
  all_goals try exact ⟨rfl, rfl, rfl⟩
  all_goals (dsimp only; repeat' split)
  all_goals exact ⟨rfl, rfl, rfl⟩

/-- `mark_document_processed_node` performs exactly one ledger update on
a terminal state with a well-formed item identity. -/
theorem mark_count (s : WorkflowState) (p : String)
    (hpath : s.document_path = some p)
    (hsrc : s.source = some "file"
      ∨ (s.source = some "email"
         ∧ otruthy (dget (s.email_data.getD []) "email_id") = true))
    (hst : s.status = some "success" ∨ s.status = some "error") :
    (mark_document_processed_node s).2.1.length
      + (mark_document_processed_node s).2.2.length = 1 := by
  unfold mark_document_processed_node
  rw [hpath]
  dsimp only
  have hcond : (s.status == some "success" || s.status == some "error") = true := by
    rcases hst with h | h <;> simp [h]
  rw [if_pos hcond]
  rcases hsrc with h | ⟨h, hid⟩
  · rw [h]
    rfl
  · rw [h]
    show (if otruthy (dget (s.email_data.getD []) "email_id") = true then _ else _ : WorkflowState × List String × List Value).2.1.length + _ = 1
    rw [if_pos hid]
    rfl

/-- `finishAtMark` performs exactly one ledger update on a terminal
state with a well-formed item identity. -/
theorem finishAtMark_marks (s : WorkflowState) (opens : List (Int × String))
    (vIns : List Data) (p : String)
    (hpath : s.document_path = some p)
    (hsrc : s.source = some "file"
      ∨ (s.source = some "email"
         ∧ otruthy (dget (s.email_data.getD []) "email_id") = true))
    (hst : s.status = some "success" ∨ s.status = some "error") :
    (finishAtMark s opens vIns).fileMarks.length
      + (finishAtMark s opens vIns).emailMarks.length = 1 := by
  unfold finishAtMark
  dsimp only
  exact mark_count s p hpath hsrc hst

/-- `finishCrashed` performs exactly one ledger update when the item
identity is well formed. -/
theorem finishCrashed_marks (s : WorkflowState) (opens : List (Int × String))
    (vIns : List Data) (p : String)
    (hpath : s.document_path = some p)
    (hsrc : s.source = some "file"
      ∨ (s.source = some "email"
         ∧ otruthy (dget (s.email_data.getD []) "email_id") = true)) :
    (finishCrashed s opens vIns).fileMarks.length
      + (finishCrashed s opens vIns).emailMarks.length = 1 := by
  unfold finishCrashed
  dsimp only
  exact mark_count _ p hpath hsrc (Or.inr rfl)

/-- Through the verification/validation loop, a run that completes with
a terminal status performs exactly one ledger update. -/
theorem graphLoop_one_mark (botId : Option String) (custW subW : WorkerOutcome)
    (p : String) :
    ∀ verifs informs (s : WorkflowState) opens vIns (r : RunResult),
      s.document_path = some p →
      (s.source = some "file"
        ∨ (s.source = some "email"
           ∧ otruthy (dget (s.email_data.getD []) "email_id") = true)) →
      graphLoop botId custW subW s verifs informs opens vIns = .done r →
      (r.preMark = some "success" ∨ r.preMark = some "error") →
      r.fileMarks.length + r.emailMarks.length = 1 := by
  intro verifs
  induction verifs with
  | nil =>
    intro informs s opens vIns r _ _ hrun _
    rw [graphLoop] at hrun
    cases hrun
  | cons ve vrest ih =>
    intro informs s opens vIns r hpath hsrc hrun hterm
    obtain ⟨hc1, hc2, hc3⟩ := human_verification_node_core botId s ve
    have hpath1 : (human_verification_node botId s ve).1.document_path = some p := by
      rw [hc1]; exact hpath
    have hsrc1 : (human_verification_node botId s ve).1.source = some "file"
        ∨ ((human_verification_node botId s ve).1.source = some "email"
           ∧ otruthy (dget ((human_verification_node botId s ve).1.email_data.getD [])
               "email_id") = true) := by
      rcases hsrc with h | ⟨h, hid⟩
      · exact Or.inl (by rw [hc2]; exact h)
      · exact Or.inr ⟨by rw [hc2]; exact h, by rw [hc3]; exact hid⟩
    by_cases hstuck : (human_verification_node botId s ve).2 = true
    · simp [graphLoop, hstuck] at hrun
    · by_cases hver : (human_verification_node botId s ve).1.is_verified = some true
      · rcases hval : validate_data_node (human_verification_node botId s ve).1 with e | s2
        · have hr : finishCrashed (human_verification_node botId s ve).1
              (opens ++ match ve.send with | some o => [o] | none => [])
              (vIns ++ (if otruthyData (human_verification_node botId s ve).1.verified_data
                then [(human_verification_node botId s ve).1.verified_data.getD []] else []))
              = r := by
            simpa [graphLoop, hstuck, hver, hval] using hrun
          rw [← hr]
          exact finishCrashed_marks _ _ _ p hpath1 hsrc1
        · obtain ⟨hd1, hd2, hd3⟩ :=
            validate_data_node_core (human_verification_node botId s ve).1 s2 hval
          have hpath2 : s2.document_path = some p := by rw [hd1]; exact hpath1
          have hsrc2 : s2.source = some "file"
              ∨ (s2.source = some "email"
                 ∧ otruthy (dget (s2.email_data.getD []) "email_id") = true) := by
            rcases hsrc1 with h | ⟨h, hid⟩
            · exact Or.inl (by rw [hd2]; exact h)
            · exact Or.inr ⟨by rw [hd2]; exact h, by rw [hd3]; exact hid⟩
          by_cases hvalid : s2.is_valid_for_billing = some true
          · obtain ⟨he1, he2, he3⟩ := configure_billing_node_core s2 custW subW
            have hr : finishAtMark (configure_billing_node s2 custW subW)
                (opens ++ match ve.send with | some o => [o] | none => [])
                (vIns ++ (if otruthyData (human_verification_node botId s ve).1.verified_data
                  then [(human_verification_node botId s ve).1.verified_data.getD []] else []))
                = r := by
              simpa [graphLoop, hstuck, hver, hval, hvalid] using hrun
            have hst : (configure_billing_node s2 custW subW).status = some "success"
                ∨ (configure_billing_node s2 custW subW).status = some "error" := by
              rw [← hr] at hterm
              rcases hterm with h | h
              · exact Or.inl h
              · exact Or.inr h
            rw [← hr]
            refine finishAtMark_marks _ _ _ p ?_ ?_ (by
              rcases hst with h | h
              exacts [Or.inl h, Or.inr h])
            · rw [he1]; exact hpath2
            · rcases hsrc2 with h | ⟨h, hid⟩
              · exact Or.inl (by rw [he2]; exact h)
              · exact Or.inr ⟨by rw [he2]; exact h, by rw [he3]; exact hid⟩
          · cases informs with
            | nil => simp [graphLoop, hstuck, hver, hval, hvalid] at hrun
            | cons io irest =>
              obtain ⟨hf1, hf2, hf3⟩ := inform_node_core s2 io
              have hrec : graphLoop botId custW subW
                  (inform_user_of_validation_error_node s2 io) vrest irest
                  (opens ++ match ve.send with | some o => [o] | none => [])
                  (vIns ++ (if otruthyData (human_verification_node botId s ve).1.verified_data
                    then [(human_verification_node botId s ve).1.verified_data.getD []] else []))
                  = .done r := by
                rw [← hrun]
                simp [graphLoop, hstuck, hver, hval, hvalid]
              refine ih irest _ _ _ r ?_ ?_ hrec hterm
              · rw [hf1]; exact hpath2
              · rcases hsrc2 with h | ⟨h, hid⟩
                · exact Or.inl (by rw [hf2]; exact h)
                · exact Or.inr ⟨by rw [hf2]; exact h, by rw [hf3]; exact hid⟩
      · have hr : finishAtMark (human_verification_node botId s ve).1
            (opens ++ match ve.send with | some o => [o] | none => []) vIns
            = r := by
          simpa [graphLoop, hstuck, hver] using hrun
        have hst : (human_verification_node botId s ve).1.status = some "success"
            ∨ (human_verification_node botId s ve).1.status = some "error" := by
          rw [← hr] at hterm
          rcases hterm with h | h
          · exact Or.inl h
          · exact Or.inr h
        rw [← hr]
        exact finishAtMark_marks _ _ _ p hpath1 hsrc1 hst

/-- C5: every run that reaches a terminal stage — the status
`mark_document_processed` sees is `"success"` or `"error"` — performs
exactly one ledger update for its item: one file-path mark or one
email-id mark, in the success case and in every failure case alike. -/
theorem c5_exactly_one_ledger_update (botId : Option String) (p : String)
    (s0 : WorkflowState) (x : ExtractOutcome) (verifs : List VerifEntry)
    (informs : List (Option Int)) (custW subW : WorkerOutcome) (r : RunResult)
    (hpath : s0.document_path = some p)
    (hsrc : s0.source = some "file"
      ∨ (s0.source = some "email"
         ∧ otruthy (dget (s0.email_data.getD []) "email_id") = true))
    (hrun : runPipeline botId s0 x verifs informs custW subW = .done r)
    (hterm : r.preMark = some "success" ∨ r.preMark = some "error") :
    r.fileMarks.length + r.emailMarks.length = 1 := by
  unfold runPipeline at hrun
  dsimp only at hrun
  obtain ⟨hp1, hp2, hp3⟩ := process_document_node_core s0 x
  have hpath1 : (process_document_node s0 x).document_path = some p := by
    rw [hp1]; exact hpath
  have hsrc1 : (process_document_node s0 x).source = some "file"
      ∨ ((process_document_node s0 x).source = some "email"
         ∧ otruthy (dget ((process_document_node s0 x).email_data.getD [])
             "email_id") = true) := by
    rcases hsrc with h | ⟨h, hid⟩
    · exact Or.inl (by rw [hp2]; exact h)
    · exact Or.inr ⟨by rw [hp2]; exact h, by rw [hp3]; exact hid⟩
  by_cases hext : otruthyData (process_document_node s0 x).extracted_data = true
  · rw [if_pos hext] at hrun
    exact graphLoop_one_mark botId custW subW p verifs informs _ [] [] r
      hpath1 hsrc1 hrun hterm
  · rw [if_neg hext] at hrun
    have hr : finishAtMark (process_document_node s0 x) [] [] = r := by
      injection hrun
    have hst : (process_document_node s0 x).status = some "success"
        ∨ (process_document_node s0 x).status = some "error" := by
      rw [← hr] at hterm
      rcases hterm with h | h
      · exact Or.inl h
      · exact Or.inr h
    rw [← hr]
    exact finishAtMark_marks _ _ _ p hpath1 hsrc1 hst

/-- The `RunResult` of the concrete successful run used as the C5
witness. -/
def c5Run : RunResult :=
  { final := { document_path := some "doc.txt", source := some "file",
               extracted_data := some c9Data, verified_data := some c9Data,
               is_verified := some true,
               original_slack_thread_ts := some 100, slack_channel_id := some "C1",
               is_valid_for_billing := some true,
               customer_id := some (vStr "cus_1"),
               subscription_id := some (vStr "sub_1"),
               configuration_result := true,
               status := some "completed" },
    preMark := some "success", fileMarks := ["doc.txt"], emailMarks := [],
    opens := [(100, "C1")], validationInputs := [c9Data], crashed := false }

/-- C5 (witness): the concrete successful run marks exactly one ledger
entry. -/
theorem c5_exactly_one_ledger_update_witness :
    runPipeline none (fileInput "doc.txt") (.res (some c9Data) none)
      [c9Entry] [] (.ok true (some [("id", vStr "cus_1")]))
      (.ok true (some [("id", vStr "sub_1")]))
      = .done c5Run
    ∧ c5Run.fileMarks.length + c5Run.emailMarks.length = 1 :=
  ⟨by decide,
   c5_exactly_one_ledger_update none "doc.txt" (fileInput "doc.txt")
     (.res (some c9Data) none) [c9Entry] []
     (.ok true (some [("id", vStr "cus_1")])) (.ok true (some [("id", vStr "sub_1")]))
     c5Run rfl (Or.inl rfl) (by decide) (Or.inl rfl)⟩

end Claims
